import Mathlib

/-!
Shallow embedding of the position-lifecycle and risk-control engine of the
trading bot (src/bot/src/services/trading/engine.ts) together with the
exchange-client position fetch (BinanceClient.getPositions).

Conventions of the embedding:
* All JavaScript numbers are modelled as exact rationals (`ℚ`).  The source's
  `isValidNumber` helper (rejecting NaN/Infinity) is therefore trivially true:
  NaN and Infinity have no counterpart in exact arithmetic, so guards of the
  form `!isValidNumber(x) || x <= 0` are modelled as `x ≤ 0`.
* Timestamps (`Date.now()`, `entryTime`, `exitTime`) are integers
  (milliseconds), passed explicitly as a `now` parameter.
* `Map<string, Position>` is modelled as an association list of `Position`
  keyed by `symbol`; `Set<string>` is a duplicate-free `List String`.
* A fallible `await` (a gateway call that may throw) is modelled by an
  explicit environment value (`Option`/`Except`) chosen adversarially, so
  theorems quantify over every exit path of the source control flow.
* `x.toFixed(p)` (decimal rounding to `p` digits, round-half-up) is modelled
  by `roundToPrecision`.
-/

namespace BotEngine

/-- Side of a position: `'LONG' | 'SHORT'` in the source. -/
inductive Side where
  | LONG
  | SHORT
deriving DecidableEq, Repr

/-- Exit reasons accepted by `closePosition` and stored in `TradeMemory`
(`'tp' | 'sl' | 'manual' | 'timeout' | 'signal'` in
src/bot/src/services/memory/index.ts and engine.ts). -/
inductive ExitReason where
  | tp
  | sl
  | manual
  | timeout
  | signal
deriving DecidableEq, Repr

/-- The source string literal of each exit reason. -/
def ExitReason.name : ExitReason → String
  | .tp => "tp"
  | .sl => "sl"
  | .manual => "manual"
  | .timeout => "timeout"
  | .signal => "signal"

/-- GPT decision action: `'BUY' | 'SELL' | 'HOLD'`. -/
inductive TradeAction where
  | BUY
  | SELL
  | HOLD
deriving DecidableEq, Repr

/-- The engine's `Position` interface (engine.ts lines 14-27).  The opaque
`entryConditions : any` snapshot is omitted: no operation reads it back. -/
structure Position where
  symbol : String
  side : Side
  entryPrice : ℚ
  quantity : ℚ
  leverage : ℚ
  stopLoss : ℚ
  takeProfit : ℚ
  entryTime : ℤ
  gptConfidence : ℚ
  gptReasoning : String
  positionSizePercent : ℚ
deriving DecidableEq, Repr

/-- The `GPTDecision` interface (src/bot/src/services/gpt/engine.ts lines
7-26); optional numeric fields become `Option ℚ`.  The adaptive-learning
fields are omitted: the trading engine never reads them. -/
structure GPTDecision where
  action : TradeAction
  confidence : ℚ
  reasoning : String
  entryPrice : Option ℚ
  stopLoss : Option ℚ
  stopLossPercent : Option ℚ
  takeProfit : Option ℚ
  takeProfitPercent : Option ℚ
  positionSizePercent : ℚ
  leverage : ℚ
  riskLevel : String
  timeframe : String
  patterns : List String
  marketContext : String
deriving DecidableEq, Repr

/-- One entry of `order.fills` in the gateway's order response. -/
structure Fill where
  price : ℚ
  qty : ℚ
deriving DecidableEq, Repr

/-- The gateway order response as read by `openPosition`: `avgPrice` may be
absent/unparsable (`none`) and `fills` may be absent (`none`). -/
structure OrderResponse where
  avgPrice : Option ℚ
  fills : Option (List Fill)
deriving DecidableEq, Repr

/-- The trade record appended by `memorySystem.addTrade` (TradeMemory,
src/bot/src/services/memory/index.ts); the opaque `entryConditions`
snapshot is omitted as in `Position`. -/
structure TradeMemory where
  symbol : String
  side : Side
  entryPrice : ℚ
  exitPrice : ℚ
  quantity : ℚ
  leverage : ℚ
  stopLoss : ℚ
  takeProfit : ℚ
  pnl : ℚ
  pnlUsd : ℚ
  entryTime : ℤ
  exitTime : ℤ
  exitReason : ExitReason
  gptConfidence : ℚ
  gptReasoning : String
deriving DecidableEq, Repr

/-- Scalping-mode configuration constants (engine.ts lines 64-69). -/
def MIN_CONFIDENCE : ℚ := 45

def MAX_LEVERAGE : ℚ := 10

def MAX_POSITION_SIZE_PERCENT : ℚ := 5

def MAX_HOLD_TIME_HOURS : ℤ := 2

def MAX_TOTAL_EXPOSURE_PERCENT : ℚ := 80

/-- `QUANTITY_PRECISION` map (engine.ts lines 72-98). -/
def QUANTITY_PRECISION : String → Option ℕ
  | "BTCUSDT" => some 3
  | "ETHUSDT" => some 3
  | "BNBUSDT" => some 2
  | "SOLUSDT" => some 0
  | "XRPUSDT" => some 0
  | "LINKUSDT" => some 2
  | "AVAXUSDT" => some 0
  | "DOGEUSDT" => some 0
  | "SUIUSDT" => some 0
  | "ARBUSDT" => some 0
  | "OPUSDT" => some 0
  | "INJUSDT" => some 1
  | "ADAUSDT" => some 0
  | "MATICUSDT" => some 0
  | "DOTUSDT" => some 1
  | "LTCUSDT" => some 3
  | "ATOMUSDT" => some 2
  | "NEARUSDT" => some 0
  | "APTUSDT" => some 1
  | "FILUSDT" => some 1
  | "WLDUSDT" => some 0
  | "SEIUSDT" => some 0
  | "TIAUSDT" => some 1
  | "CRVUSDT" => some 0
  | "TONUSDT" => some 1
  | _ => none

/-- `PRICE_PRECISION` map (engine.ts lines 101-127). -/
def PRICE_PRECISION : String → Option ℕ
  | "BTCUSDT" => some 1
  | "ETHUSDT" => some 2
  | "BNBUSDT" => some 2
  | "SOLUSDT" => some 2
  | "XRPUSDT" => some 4
  | "LINKUSDT" => some 3
  | "AVAXUSDT" => some 2
  | "DOGEUSDT" => some 5
  | "SUIUSDT" => some 4
  | "ARBUSDT" => some 4
  | "OPUSDT" => some 4
  | "INJUSDT" => some 3
  | "ADAUSDT" => some 4
  | "MATICUSDT" => some 4
  | "DOTUSDT" => some 3
  | "LTCUSDT" => some 2
  | "ATOMUSDT" => some 3
  | "NEARUSDT" => some 3
  | "APTUSDT" => some 3
  | "FILUSDT" => some 3
  | "WLDUSDT" => some 3
  | "SEIUSDT" => some 4
  | "TIAUSDT" => some 3
  | "CRVUSDT" => some 4
  | "TONUSDT" => some 3
  | _ => none

/-- `parseFloat(x.toFixed(p))`: round to `p` decimal digits (half-up). -/
def roundToPrecision (x : ℚ) (p : ℕ) : ℚ :=
  (round (x * 10 ^ p) : ℤ) / 10 ^ p

/-- JavaScript `v || default` on an optional number: `0` and `undefined`
are falsy, any other number is itself. -/
def orFalsy (v : Option ℚ) (dflt : ℚ) : ℚ :=
  match v with
  | some x => if x = 0 then dflt else x
  | none => dflt

/-- `calculatePnl` (engine.ts lines 979-991): leveraged percentage P&L of a
position at a price.  The `isValidNumber` guards are vacuous over `ℚ`, so
only the `entryPrice === 0` branch of the validity check remains. -/
def calculatePnl (position : Position) (currentPrice : ℚ) : ℚ :=
  if position.entryPrice = 0 then 0
  else
    match position.side with
    | .LONG => (currentPrice - position.entryPrice) / position.entryPrice * 100 * position.leverage
    | .SHORT => (position.entryPrice - currentPrice) / position.entryPrice * 100 * position.leverage

/-- The action `checkPositionExit` decides: evict a corrupt position, close
it with a reason at a price, tighten the trailing stop, or do nothing. -/
inductive ExitAction where
  | evict
  | close (reason : ExitReason) (price : ℚ)
  | trail (newStopLoss : ℚ)
  | hold
deriving DecidableEq, Repr

/-- `checkPositionExit` (engine.ts lines 764-810), as the decision it takes
on one price tick.  Guard order is that of the source: invalid-position
eviction, stop-loss, take-profit, timeout, trailing stop. -/
def checkPositionExit (position : Position) (currentPrice : ℚ) (now : ℤ) : ExitAction :=
  if position.entryPrice ≤ 0 ∨ position.quantity ≤ 0 then .evict
  else
    let pnl := calculatePnl position currentPrice
    if position.side = .LONG ∧ currentPrice ≤ position.stopLoss then .close .sl currentPrice
    else if position.side = .SHORT ∧ currentPrice ≥ position.stopLoss then .close .sl currentPrice
    else if position.side = .LONG ∧ currentPrice ≥ position.takeProfit then .close .tp currentPrice
    else if position.side = .SHORT ∧ currentPrice ≤ position.takeProfit then .close .tp currentPrice
    else if now - position.entryTime > MAX_HOLD_TIME_HOURS * 60 * 60 * 1000 then .close .timeout currentPrice
    else if pnl > 1 then
      let newStopLoss :=
        match position.side with
        | .LONG => max position.stopLoss (currentPrice * (995 / 1000))
        | .SHORT => min position.stopLoss (currentPrice * (1005 / 1000))
      if newStopLoss ≠ position.stopLoss then .trail newStopLoss else .hold
    else .hold

/-- Membership test of a `Set<string>` of symbols. -/
def markerHas (s : List String) (x : String) : Bool :=
  s.contains x

/-- `Set.add`: insert a symbol if not already present. -/
def markerAdd (s : List String) (x : String) : List String :=
  if markerHas s x then s else x :: s

/-- `Set.delete`: remove a symbol. -/
def markerDelete (s : List String) (x : String) : List String :=
  s.filter (fun y => y ≠ x)

/-- `Map.get` on the position ledger. -/
def ledgerGet (l : List Position) (symbol : String) : Option Position :=
  l.find? (fun p => p.symbol = symbol)

/-- `Map.set` on the position ledger: replace in place or append. -/
def ledgerSet (l : List Position) (p : Position) : List Position :=
  if l.any (fun q => q.symbol = p.symbol) then
    l.map (fun q => if q.symbol = p.symbol then p else q)
  else l ++ [p]

/-- `Map.delete` on the position ledger. -/
def ledgerDelete (l : List Position) (symbol : String) : List Position :=
  l.filter (fun p => p.symbol ≠ symbol)

/-- The mutable engine state touched by the guarded operations: the ledger
(`state.currentPositions`), the two in-flight marker sets
(`openingPositions` / `closingPositions`, engine.ts lines 812-813), the
balances and daily counters of `BotState`, and the append-only list of
records passed to `memorySystem.addTrade`. -/
structure EngineState where
  currentPositions : List Position
  openingPositions : List String
  closingPositions : List String
  balance : ℚ
  availableBalance : ℚ
  todayPnl : ℚ
  todayTrades : ℕ
  trades : List TradeMemory
deriving DecidableEq, Repr

/-- `calculateTotalExposure` (engine.ts lines 999-1017): summed margin
(`quantity×entryPrice/leverage`) over open positions, and its percentage of
balance.  The `isValidNumber(exposurePercent)` fallback is vacuous in ℚ. -/
def calculateTotalExposure (st : EngineState) : ℚ × ℚ :=
  let totalExposure :=
    st.currentPositions.foldl (fun acc p => acc + p.quantity * p.entryPrice / p.leverage) 0
  let exposurePercent := if 0 < st.balance then totalExposure / st.balance * 100 else 0
  (totalExposure, exposurePercent)

/-- The admission predicate of `canOpenNewPosition` (engine.ts lines
1020-1034) on explicit balance and exposure: allowed unless the new
exposure percentage (100 when balance is not positive) exceeds the cap. -/
def canOpenExposureCheck (balance exposureUsd requiredMargin : ℚ) : Bool :=
  let newExposurePercent :=
    if 0 < balance then (exposureUsd + requiredMargin) / balance * 100 else 100
  !(decide (MAX_TOTAL_EXPOSURE_PERCENT < newExposurePercent))

/-- `canOpenNewPosition` (engine.ts lines 1020-1034). -/
def canOpenNewPosition (st : EngineState) (requiredMargin : ℚ) : Bool :=
  canOpenExposureCheck st.balance (calculateTotalExposure st).1 requiredMargin

/-- Entry-price derivation of `openPosition` (engine.ts lines 670-690):
gateway `avgPrice` when parseable and positive; otherwise the
fill-quantity-weighted average when fills are present (falling back to the
pre-trade market price when their total quantity is not positive);
otherwise the pre-trade market price. -/
def deriveEntryPrice (order : OrderResponse) (marketPrice : ℚ) : ℚ :=
  let fillsBranch :=
    match order.fills with
    | some fills =>
      if fills.length > 0 then
        let totalQty := fills.foldl (fun s f => s + f.qty) 0
        let totalValue := fills.foldl (fun s f => s + f.price * f.qty) 0
        if 0 < totalQty then totalValue / totalQty else marketPrice
      else marketPrice
    | none => marketPrice
  match order.avgPrice with
  | some ap => if 0 < ap then ap else fillsBranch
  | none => fillsBranch

/-- Modelled from the spec: the entry-price priority §4.2 step 5 claims
(fills-first): "derive the realized entry price as the fill-quantity-weighted
average price from the fill set, falling back to the gateway-reported
average price, and only as a last resort to the pre-trade market price".
Stated for refinement comparison against `deriveEntryPrice`. -/
def deriveEntryPriceSpec (order : OrderResponse) (marketPrice : ℚ) : ℚ :=
  match order.fills with
  | some fills =>
    if fills.length > 0 ∧ 0 < fills.foldl (fun s f => s + f.qty) 0 then
      fills.foldl (fun s f => s + f.price * f.qty) 0 / fills.foldl (fun s f => s + f.qty) 0
    else
      match order.avgPrice with
      | some ap => if 0 < ap then ap else marketPrice
      | none => marketPrice
  | none =>
    match order.avgPrice with
    | some ap => if 0 < ap then ap else marketPrice
    | none => marketPrice

/-- Outcome of one `openPosition` invocation. -/
inductive OpenOutcome where
  | duplicate
  | rejected (reason : String)
  | failed (reason : String)
  | opened (p : Position)
deriving DecidableEq, Repr

/-- The leverage stored by a successful open, `none` otherwise. -/
def OpenOutcome.storedLeverage : OpenOutcome → Option ℚ
  | .opened p => some p.leverage
  | _ => none

/-- Environment of one `openPosition` run: whether each fallible `await`
inside the `try` block succeeds.  `orderResult = none` models a throwing
`createOrder`; `contextFetchOk` covers the fearGreed/news fetches performed
while building the stored position; `balanceResult` is what the
post-store `updateBalance` refresh reads from the gateway (`none` when
that internally-caught fetch fails and the balances stay as they were). -/
structure OpenEnv where
  setLeverageOk : Bool
  setMarginTypeOk : Bool
  orderResult : Option OrderResponse
  contextFetchOk : Bool
  balanceResult : Option (ℚ × ℚ)
deriving DecidableEq, Repr

/-- Steps 5-7 of the `try` block of `openPosition` after the order
response is in hand (engine.ts lines 692-750): reject a non-positive
derived entry price (the thrown `Invalid entry price` error, caught by the
`catch` block), compute SL/TP from absolute prices or percentage
fallbacks rounded to the price precision, and build the stored position.
`contextFetchOk` covers the fearGreed/news fetches inside the position
literal. -/
def openPositionStore (symbol : String) (decision : GPTDecision) (now : ℤ)
    (contextFetchOk : Bool) (entryPrice leverage positionSizePercent roundedQty : ℚ) :
    OpenOutcome :=
  if entryPrice ≤ 0 then .failed "invalid entry price"
  else
    let pricePrecision := (PRICE_PRECISION symbol).getD 4
    let rawStopLoss := orFalsy decision.stopLoss
      (match decision.action with
       | .BUY => entryPrice * (1 - orFalsy decision.stopLossPercent 1 / 100)
       | _ => entryPrice * (1 + orFalsy decision.stopLossPercent 1 / 100))
    let rawTakeProfit := orFalsy decision.takeProfit
      (match decision.action with
       | .BUY => entryPrice * (1 + orFalsy decision.takeProfitPercent (1 / 2) / 100)
       | _ => entryPrice * (1 - orFalsy decision.takeProfitPercent (1 / 2) / 100))
    let stopLoss := roundToPrecision rawStopLoss pricePrecision
    let takeProfit := roundToPrecision rawTakeProfit pricePrecision
    if !contextFetchOk then .failed "context fetch"
    else
      .opened
        { symbol := symbol
          side := if decision.action = .BUY then .LONG else .SHORT
          entryPrice := entryPrice
          quantity := roundedQty
          leverage := leverage
          stopLoss := stopLoss
          takeProfit := takeProfit
          entryTime := now
          gptConfidence := decision.confidence
          gptReasoning := decision.reasoning
          positionSizePercent := positionSizePercent }

/-- Step 5 of the `try` block of `openPosition` (engine.ts lines 653-698):
the leverage/margin-mode calls and the market order, each of which may
throw, then the entry-price derivation feeding `openPositionStore`. -/
def openPositionSubmit (symbol : String) (decision : GPTDecision) (analysisPrice : ℚ)
    (now : ℤ) (env : OpenEnv) (leverage positionSizePercent roundedQty : ℚ) : OpenOutcome :=
  if !env.setLeverageOk then .failed "setLeverage"
  else if !env.setMarginTypeOk then .failed "setMarginType"
  else
    match env.orderResult with
    | none => .failed "createOrder"
    | some order =>
      openPositionStore symbol decision now env.contextFetchOk
        (deriveEntryPrice order analysisPrice) leverage positionSizePercent roundedQty

/-- Control flow of the `try` block of `openPosition` (engine.ts lines
604-757), running on a state in which the opening marker is already held:
input validation, leverage/size clamping, exposure admission, quantity
computation and precision rounding, then submission.  Early `return`s
become `rejected`, thrown errors caught by the `catch` block become
`failed`, and the success path carries the stored position.
(`isValidNumber` guards are vacuous over ℚ; see header.) -/
def openPositionFlow (symbol : String) (decision : GPTDecision) (analysisPrice : ℚ)
    (now : ℤ) (env : OpenEnv) (st : EngineState) : OpenOutcome :=
  if analysisPrice ≤ 0 then .rejected "invalid price"
  else if decision.leverage < 1 then .rejected "invalid leverage"
  else if decision.positionSizePercent ≤ 0 then .rejected "invalid position size"
  else
    let leverage := min (max 1 decision.leverage) MAX_LEVERAGE
    let positionSizePercent := min decision.positionSizePercent MAX_POSITION_SIZE_PERCENT
    let capitalToUse := st.availableBalance * (positionSizePercent / 100)
    if !canOpenNewPosition st capitalToUse then .rejected "exposure limit"
    else
      let positionValue := capitalToUse * leverage
      let quantity := positionValue / analysisPrice
      if quantity ≤ 0 then .rejected "invalid quantity"
      else
        openPositionSubmit symbol decision analysisPrice now env leverage positionSizePercent
          (roundToPrecision quantity ((QUANTITY_PRECISION symbol).getD 3))

/-- State effect of the `try` block of `openPosition`: every rejection and
failure path leaves the state untouched; the success path stores the
position, increments `todayTrades`, and refreshes the balances
(`updateBalance`, which swallows its own fetch errors). -/
def openPositionBody (symbol : String) (decision : GPTDecision) (analysisPrice : ℚ)
    (now : ℤ) (env : OpenEnv) (st : EngineState) : OpenOutcome × EngineState :=
  match openPositionFlow symbol decision analysisPrice now env st with
  | .opened position =>
    (.opened position,
     { st with
         currentPositions := ledgerSet st.currentPositions position
         todayTrades := st.todayTrades + 1
         balance := (env.balanceResult.map Prod.fst).getD st.balance
         availableBalance := (env.balanceResult.map Prod.snd).getD st.availableBalance })
  | r => (r, st)

/-- `openPosition` (engine.ts lines 592-762): the opening-marker guard at
entry, the guarded `try` body, and the `finally` block that always removes
the marker. -/
def openPosition (symbol : String) (decision : GPTDecision) (analysisPrice : ℚ)
    (now : ℤ) (env : OpenEnv) (st : EngineState) : OpenOutcome × EngineState :=
  if markerHas st.openingPositions symbol then (.duplicate, st)
  else
    let stGuarded := { st with openingPositions := markerAdd st.openingPositions symbol }
    let result := openPositionBody symbol decision analysisPrice now env stGuarded
    (result.1, { result.2 with openingPositions := markerDelete result.2.openingPositions symbol })

/-- Per-side sign of a position: +1 for LONG, −1 for SHORT. -/
def sideSign : Side → ℚ
  | .LONG => 1
  | .SHORT => -1

/-- Net USD P&L computed by `closePosition` (engine.ts lines 853-863):
side-signed price difference times quantity, minus a 0.02% commission on
each of the entry and exit notionals. -/
def closePnlUsd (side : Side) (entryPrice exitPrice quantity : ℚ) : ℚ :=
  let priceDiff :=
    match side with
    | .LONG => exitPrice - entryPrice
    | .SHORT => entryPrice - exitPrice
  let grossPnlUsd := priceDiff * quantity
  let entryValue := entryPrice * quantity
  let exitValue := exitPrice * quantity
  let entryCommission := entryValue * (2 / 10000)
  let exitCommission := exitValue * (2 / 10000)
  let commissionFee := entryCommission + exitCommission
  grossPnlUsd - commissionFee

/-- `Math.floor(q / stepSize) * stepSize`: the closing-quantity rounding of
`closePosition` (engine.ts lines 834-837).  The subsequent re-formatting
with `toFixed(-log10 stepSize)` is the identity for the exchange's
power-of-ten lot steps and is not modelled separately. -/
def floorToStep (q stepSize : ℚ) : ℚ :=
  (⌊q / stepSize⌋ : ℤ) * stepSize

/-- Outcome of one `closePosition` invocation. -/
inductive CloseOutcome where
  | duplicate
  | failed (reason : String)
  | closed (trade : TradeMemory)
deriving DecidableEq, Repr

/-- Environment of one `closePosition` run.  `symbolInfoResult = none`
models a throwing `getSymbolInfo`; `some none` an answer without a
`LOT_SIZE` filter (step size defaults to 0.001); `some (some s)` a filter
with step size `s`.  `orderOk`/`learnOk` are the closing order and the
`learnFromTrade` call; `balanceResult` is what the post-close
`updateBalance` refresh reads (`none` when that internally-caught fetch
fails). -/
structure CloseEnv where
  symbolInfoResult : Option (Option ℚ)
  orderOk : Bool
  learnOk : Bool
  balanceResult : Option (ℚ × ℚ)
deriving DecidableEq, Repr

/-- The `TradeMemory` record appended by `closePosition` via
`memorySystem.addTrade` (engine.ts lines 866-883). -/
def closeTradeRecord (position : Position) (exitPrice : ℚ) (reason : ExitReason)
    (now : ℤ) : TradeMemory :=
  { symbol := position.symbol
    side := position.side
    entryPrice := position.entryPrice
    exitPrice := exitPrice
    quantity := position.quantity
    leverage := position.leverage
    stopLoss := position.stopLoss
    takeProfit := position.takeProfit
    pnl := calculatePnl position exitPrice
    pnlUsd := closePnlUsd position.side position.entryPrice exitPrice position.quantity
    entryTime := position.entryTime
    exitTime := now
    exitReason := reason
    gptConfidence := position.gptConfidence
    gptReasoning := position.gptReasoning }

/-- Control flow of the `try` block of `closePosition` (engine.ts lines
827-907), running with the closing marker held: a throw at
`getSymbolInfo` or at the closing order aborts before any state mutation;
a throw at `learnFromTrade` aborts after the trade record was appended. -/
inductive CloseFlow where
  | infoFail
  | orderFail
  | learnFail (trade : TradeMemory)
  | success (trade : TradeMemory)
deriving DecidableEq, Repr

/-- Which of the exit paths of the `try` block of `closePosition` runs. -/
def closePositionFlow (position : Position) (exitPrice : ℚ) (reason : ExitReason)
    (now : ℤ) (env : CloseEnv) : CloseFlow :=
  match env.symbolInfoResult with
  | none => .infoFail
  | some lotSizeFilter =>
    let stepSize := lotSizeFilter.getD (1 / 1000)
    let roundedQty := floorToStep position.quantity stepSize
    if !env.orderOk then .orderFail
    else
      let trade := closeTradeRecord position exitPrice reason now
      if !env.learnOk then .learnFail trade
      else .success trade

/-- State effect of the `try` block of `closePosition`: nothing changes on
a `getSymbolInfo` or order failure; a `learnFromTrade` failure leaves the
appended trade record behind (the `catch` block swallows the error mid
sequence); the success path additionally deletes the position, adds the
net P&L to `todayPnl`, and refreshes the balances (`updateBalance`). -/
def closePositionBody (position : Position) (exitPrice : ℚ) (reason : ExitReason)
    (now : ℤ) (env : CloseEnv) (st : EngineState) : CloseOutcome × EngineState :=
  match closePositionFlow position exitPrice reason now env with
  | .infoFail => (.failed "getSymbolInfo", st)
  | .orderFail => (.failed "createOrder", st)
  | .learnFail trade => (.failed "learnFromTrade", { st with trades := st.trades ++ [trade] })
  | .success trade =>
    (.closed trade,
     { st with
         trades := st.trades ++ [trade]
         currentPositions := ledgerDelete st.currentPositions position.symbol
         todayPnl := st.todayPnl + trade.pnlUsd
         balance := (env.balanceResult.map Prod.fst).getD st.balance
         availableBalance := (env.balanceResult.map Prod.snd).getD st.availableBalance })

/-- `closePosition` (engine.ts lines 815-912): the closing-marker guard at
entry, the guarded `try` body, and the `finally` block that always removes
the marker. -/
def closePosition (position : Position) (exitPrice : ℚ) (reason : ExitReason)
    (now : ℤ) (env : CloseEnv) (st : EngineState) : CloseOutcome × EngineState :=
  if markerHas st.closingPositions position.symbol then (.duplicate, st)
  else
    let stGuarded := { st with closingPositions := markerAdd st.closingPositions position.symbol }
    let result := closePositionBody position exitPrice reason now env stGuarded
    (result.1, { result.2 with closingPositions := markerDelete result.2.closingPositions position.symbol })

/-- Net USD P&L computed by `handlePositionClosed` for an externally closed
position (engine.ts lines 929-937): identical commission formula, exit at
the best-available current price. -/
def externalClosePnlUsd (position : Position) (currentPrice : ℚ) : ℚ :=
  let priceDiff :=
    match position.side with
    | .LONG => currentPrice - position.entryPrice
    | .SHORT => position.entryPrice - currentPrice
  let grossPnlUsd := priceDiff * position.quantity
  let entryValue := position.entryPrice * position.quantity
  let exitValue := currentPrice * position.quantity
  let commissionFee := (entryValue + exitValue) * (2 / 10000)
  grossPnlUsd - commissionFee

/-- The `TradeMemory` record appended by `handlePositionClosed` via
`memorySystem.addTrade` (engine.ts lines 940-957).  The source stores
`exitReason: 'manual'` with the comment "External close (liquidation or
manual from exchange)". -/
def handlePositionClosedTrade (position : Position) (currentPrice : ℚ) (now : ℤ) : TradeMemory :=
  { symbol := position.symbol
    side := position.side
    entryPrice := position.entryPrice
    exitPrice := currentPrice
    quantity := position.quantity
    leverage := position.leverage
    stopLoss := position.stopLoss
    takeProfit := position.takeProfit
    pnl := calculatePnl position currentPrice
    pnlUsd := externalClosePnlUsd position currentPrice
    entryTime := position.entryTime
    exitTime := now
    exitReason := ExitReason.manual
    gptConfidence := position.gptConfidence
    gptReasoning := position.gptReasoning }

/-- Environment of one `handlePositionClosed` run: `priceResult = none`
models a throwing `getPrice`; `learnOk` the `learnFromTrade` call. -/
structure ExternalCloseEnv where
  priceResult : Option ℚ
  learnOk : Bool
deriving DecidableEq, Repr

/-- `handlePositionClosed` (engine.ts lines 914-977): if the symbol holds
the closing marker the call is a no-op (early return before the `try`
block).  Otherwise the `try` block fetches a price, appends the trade
record, and updates `todayPnl` (skipped if `learnFromTrade` throws, since
the `catch` swallows the error mid-sequence); the ledger delete after the
`try`/`catch` runs on every non-skipped path, even when `getPrice` threw. -/
def handlePositionClosed (position : Position) (now : ℤ) (env : ExternalCloseEnv)
    (st : EngineState) : EngineState :=
  if markerHas st.closingPositions position.symbol then st
  else
    let stTried :=
      match env.priceResult with
      | none => st
      | some currentPrice =>
        let trade := handlePositionClosedTrade position currentPrice now
        let stRecorded := { st with trades := st.trades ++ [trade] }
        if env.learnOk then { stRecorded with todayPnl := stRecorded.todayPnl + trade.pnlUsd }
        else stRecorded
    { stTried with currentPositions := ledgerDelete stTried.currentPositions position.symbol }

/-- One row of the gateway's `positionRisk` response, as read by
`BinanceClient.getPositions` (src/unnamed/part_005 lines 204-225). -/
structure PositionRisk where
  symbol : String
  positionAmt : ℚ
deriving DecidableEq, Repr

/-- `BinanceClient.getPositions` (src/unnamed/part_005 lines 204-225): on a
successful gateway request, the rows with nonzero `positionAmt`; on any
thrown error, the empty list ("Return empty array instead of throwing"). -/
def getPositions (gatewayResult : Except String (List PositionRisk)) : List PositionRisk :=
  match gatewayResult with
  | .ok data => data.filter (fun p => p.positionAmt ≠ 0)
  | .error _ => []

/-- One pass of `startPositionMonitoring` (engine.ts lines 430-446): fetch
the exchange position set through `getPositions`, and run
`handlePositionClosed` on every ledger position whose symbol is absent
from it. -/
def monitoringPass (gatewayResult : Except String (List PositionRisk))
    (envOf : String → ExternalCloseEnv) (now : ℤ) (st : EngineState) : EngineState :=
  let exchangePositions := (getPositions gatewayResult).map (fun p => p.symbol)
  st.currentPositions.foldl
    (fun acc p =>
      if exchangePositions.contains p.symbol then acc
      else handlePositionClosed p now (envOf p.symbol) acc)
    st

/-- The ledger positions a monitoring pass classifies as externally closed:
those whose symbol the exchange-reported set does not contain (the loop
condition of engine.ts lines 439-444). -/
def externallyClosedCandidates (gatewayResult : Except String (List PositionRisk))
    (st : EngineState) : List Position :=
  st.currentPositions.filter
    (fun p => !((getPositions gatewayResult).map (fun q => q.symbol)).contains p.symbol)

/-- Whether an open outcome stored a position. -/
def OpenOutcome.isOpened : OpenOutcome → Bool
  | .opened _ => true
  | _ => false

/-- Total fill quantity, as summed by `openPosition`. -/
def totalFillQty (fills : List Fill) : ℚ :=
  fills.foldl (fun s f => s + f.qty) 0

/-- Fill-quantity-weighted average price, as computed by `openPosition`. -/
def fillWeightedAvg (fills : List Fill) : ℚ :=
  fills.foldl (fun s f => s + f.price * f.qty) 0 / totalFillQty fills

/-- Sequential admission of a list of required margins through the code's
exposure check (`canOpenNewPosition`'s predicate): each admitted open adds
its margin to the running exposure; `true` iff every open is admitted. -/
def admitSequence (balance : ℚ) : ℚ → List ℚ → Bool
  | _, [] => true
  | exposure, m :: ms =>
    if canOpenExposureCheck balance exposure m then admitSequence balance (exposure + m) ms
    else false

/-- A SHORT position as recovered at startup by `initialize` (engine.ts
lines 209-236): placeholder `stopLoss = 0`, `takeProfit = 0` ("Will be
updated by GPT"). -/
def existingShortPosition : Position :=
  { symbol := "BTCUSDT"
    side := .SHORT
    entryPrice := 100
    quantity := 1
    leverage := 5
    stopLoss := 0
    takeProfit := 0
    entryTime := 0
    gptConfidence := 0
    gptReasoning := "Existing position"
    positionSizePercent := 0 }

/-- A normal open LONG position used in concrete scenarios. -/
def ethPosition : Position :=
  { symbol := "ETHUSDT"
    side := .LONG
    entryPrice := 2000
    quantity := 1
    leverage := 5
    stopLoss := 1950
    takeProfit := 2100
    entryTime := 0
    gptConfidence := 70
    gptReasoning := "long"
    positionSizePercent := 5 }

/-- An engine state with no open positions and a 1000 USDT balance. -/
def emptyState : EngineState :=
  { currentPositions := []
    openingPositions := []
    closingPositions := []
    balance := 1000
    availableBalance := 1000
    todayPnl := 0
    todayTrades := 0
    trades := [] }

/-- A fill-latency race: ETHUSDT is in the ledger and holds the `opening`
marker (its open operation has stored it but not yet finished). -/
def openingRaceState : EngineState :=
  { emptyState with currentPositions := [ethPosition], openingPositions := ["ETHUSDT"] }

/-- A local close in flight: ETHUSDT is in the ledger and holds the
`closing` marker. -/
def closingRaceState : EngineState :=
  { emptyState with currentPositions := [ethPosition], closingPositions := ["ETHUSDT"] }

/-- A well-formed BUY recommendation. -/
def baseDecision : GPTDecision :=
  { action := .BUY
    confidence := 80
    reasoning := "scalp"
    entryPrice := none
    stopLoss := some 95
    stopLossPercent := none
    takeProfit := some 110
    takeProfitPercent := none
    positionSizePercent := 5
    leverage := 5
    riskLevel := "medium"
    timeframe := "5m"
    patterns := []
    marketContext := "" }

/-- `baseDecision` with leverage 20, twice the configured maximum. -/
def overLeverageDecision : GPTDecision :=
  { baseDecision with leverage := 20 }

/-- An environment in which every gateway call succeeds and the order
reports an average fill price of 100. -/
def happyOpenEnv : OpenEnv :=
  { setLeverageOk := true
    setMarginTypeOk := true
    orderResult := some { avgPrice := some 100, fills := none }
    contextFetchOk := true
    balanceResult := none }

/-- An order response whose reported average price is 0 and whose single
fill has price 0: the derived weighted entry price is 0. -/
def zeroFillOrder : OrderResponse :=
  { avgPrice := some 0, fills := some [{ price := 0, qty := 1 }] }

/-- `happyOpenEnv` but the order comes back with the degenerate
`zeroFillOrder`. -/
def zeroFillOpenEnv : OpenEnv :=
  { happyOpenEnv with orderResult := some zeroFillOrder }

/-- An order response with a positive reported average price (10) and a
fill set whose weighted average (20) differs from it. -/
def mixedOrder : OrderResponse :=
  { avgPrice := some 10, fills := some [{ price := 20, qty := 1 }] }

/-- An external-close environment whose price fetch returns 2100. -/
def happyExternalEnv : ExternalCloseEnv :=
  { priceResult := some 2100, learnOk := true }

/-- An order response with no reported average price and one fill at 20. -/
def noAvgOrder : OrderResponse :=
  { avgPrice := none, fills := some [{ price := 20, qty := 1 }] }

/-- An order response with neither an average price nor fills. -/
def emptyOrder : OrderResponse :=
  { avgPrice := none, fills := none }

/-- `baseDecision` with leverage 0, below the valid minimum of 1. -/
def invalidLeverageDecision : GPTDecision :=
  { baseDecision with leverage := 0 }

/-- `emptyState` with a negative balance. -/
def negBalanceState : EngineState :=
  { emptyState with balance := -5 }

/-- The position that opening with `overLeverageDecision` at market price
100 under `happyOpenEnv` stores: leverage clamped from 20 to the cap 10. -/
def expectedOpenedPosition : Position :=
  { symbol := "BTCUSDT"
    side := .LONG
    entryPrice := 100
    quantity := 5
    leverage := 10
    stopLoss := 95
    takeProfit := 110
    entryTime := 0
    gptConfidence := 80
    gptReasoning := "scalp"
    positionSizePercent := 5 }

/-! Helper lemmas shared by the claim theorems. -/

theorem markerDelete_of_not_has (s : List String) (x : String)
    (h : markerHas s x = false) : markerDelete s x = s := by
  induction s with
  | nil => rfl
  | cons a t ih =>
    simp only [markerHas, List.contains_cons, Bool.or_eq_false_iff, beq_eq_false_iff_ne] at h
    simp only [markerDelete, List.filter_cons]
    rw [if_pos (by simpa using fun hax => h.1 hax.symm)]
    have := ih (by simpa [markerHas] using h.2)
    simpa [markerDelete] using congrArg (List.cons a) this

theorem openPositionBody_preserves_markers (symbol : String) (decision : GPTDecision)
    (analysisPrice : ℚ) (now : ℤ) (env : OpenEnv) (st : EngineState) :
    (openPositionBody symbol decision analysisPrice now env st).2.openingPositions =
      st.openingPositions ∧
    (openPositionBody symbol decision analysisPrice now env st).2.closingPositions =
      st.closingPositions := by
  refine ⟨?_, ?_⟩ <;>
    · unfold openPositionBody
      split <;> rfl

theorem closePositionBody_preserves_markers (position : Position) (exitPrice : ℚ)
    (reason : ExitReason) (now : ℤ) (env : CloseEnv) (st : EngineState) :
    (closePositionBody position exitPrice reason now env st).2.openingPositions =
      st.openingPositions ∧
    (closePositionBody position exitPrice reason now env st).2.closingPositions =
      st.closingPositions := by
  refine ⟨?_, ?_⟩ <;>
    · unfold closePositionBody
      split <;> rfl

theorem markerDelete_markerAdd (s : List String) (x : String)
    (h : markerHas s x = false) : markerDelete (markerAdd s x) x = s := by
  have hs := markerDelete_of_not_has s x h
  unfold markerAdd
  rw [if_neg (by simp [h])]
  show (x :: s).filter (fun y => y ≠ x) = s
  rw [List.filter_cons, if_neg (by simp)]
  exact hs

theorem openPositionStore_opened_inv (symbol : String) (decision : GPTDecision) (now : ℤ)
    (contextFetchOk : Bool) (entryPrice leverage positionSizePercent roundedQty : ℚ)
    (p : Position)
    (h : openPositionStore symbol decision now contextFetchOk entryPrice leverage
      positionSizePercent roundedQty = .opened p) :
    ¬ entryPrice ≤ 0 ∧ p.entryPrice = entryPrice ∧ p.leverage = leverage ∧
      p.positionSizePercent = positionSizePercent := by
  unfold openPositionStore at h
  by_cases h1 : entryPrice ≤ 0
  · rw [if_pos h1] at h
    simp at h
  · rw [if_neg h1] at h
    dsimp only at h
    by_cases h2 : (!contextFetchOk) = true
    · rw [if_pos h2] at h
      simp at h
    · rw [if_neg h2] at h
      injection h with hx
      subst hx
      exact ⟨h1, rfl, rfl, rfl⟩

theorem openPositionSubmit_opened_inv (symbol : String) (decision : GPTDecision)
    (analysisPrice : ℚ) (now : ℤ) (env : OpenEnv) (leverage positionSizePercent roundedQty : ℚ)
    (p : Position)
    (h : openPositionSubmit symbol decision analysisPrice now env leverage positionSizePercent
      roundedQty = .opened p) :
    ∃ order, env.orderResult = some order ∧
      openPositionStore symbol decision now env.contextFetchOk
        (deriveEntryPrice order analysisPrice) leverage positionSizePercent roundedQty =
        .opened p := by
  unfold openPositionSubmit at h
  split at h
  · simp at h
  · split at h
    · simp at h
    · split at h
      · simp at h
      · rename_i order horder
        exact ⟨order, horder, h⟩

theorem openPositionFlow_opened_inv (symbol : String) (decision : GPTDecision)
    (analysisPrice : ℚ) (now : ℤ) (env : OpenEnv) (st : EngineState) (p : Position)
    (h : openPositionFlow symbol decision analysisPrice now env st = .opened p) :
    ¬ analysisPrice ≤ 0 ∧ ¬ decision.leverage < 1 ∧ ¬ decision.positionSizePercent ≤ 0 ∧
      openPositionSubmit symbol decision analysisPrice now env
        (min (max 1 decision.leverage) MAX_LEVERAGE)
        (min decision.positionSizePercent MAX_POSITION_SIZE_PERCENT)
        (roundToPrecision
          (st.availableBalance * (min decision.positionSizePercent MAX_POSITION_SIZE_PERCENT / 100) *
              (min (max 1 decision.leverage) MAX_LEVERAGE) / analysisPrice)
          ((QUANTITY_PRECISION symbol).getD 3)) = .opened p := by
  unfold openPositionFlow at h
  split at h
  · simp at h
  · split at h
    · simp at h
    · split at h
      · simp at h
      · rename_i h1 h2 h3
        dsimp only at h
        split at h
        · simp at h
        · split at h
          · simp at h
          · exact ⟨h1, h2, h3, h⟩

/-! Claim theorems. -/

/-- C1: the code contradicts the claim that a zero (placeholder) stop-loss
or take-profit suppresses SL/TP exits: on the startup-recovered SHORT
position with `stopLoss = 0`, `checkPositionExit` triggers a close with
reason `sl` at the positive tick price 90 (any positive price behaves the
same, since a SHORT closes on `price ≥ stopLoss`). -/
theorem c1_zero_stop_short_closes_sl :
    checkPositionExit existingShortPosition 90 0 = .close .sl 90 := by
  decide

/-- C5: for both sides and all rational prices/quantities, the net USD P&L
recorded at close equals the side-signed gross price move times quantity,
minus the per-side fee rate 0.0002 applied to the summed entry and exit
notionals. -/
theorem c5_commission_symmetry (side : Side) (entryPrice exitPrice quantity : ℚ) :
    closePnlUsd side entryPrice exitPrice quantity =
      (exitPrice - entryPrice) * quantity * sideSign side -
        (entryPrice + exitPrice) * quantity * (2 / 10000) := by
  cases side <;> simp only [closePnlUsd, sideSign] <;> ring

/-- C3 counterexample: the trade record appended by the reconciliation
path for an externally closed position carries exit reason `manual`, not
`external`, at the concrete position `ethPosition`. -/
theorem c3_counterexample_reason_manual_not_external :
    (handlePositionClosedTrade ethPosition 2100 5).exitReason.name = "manual" ∧
    (handlePositionClosedTrade ethPosition 2100 5).exitReason.name ≠ "external" := by
  decide

/-- C3 amended: every close detected by the reconciliation loop records a
trade whose `exitReason` is `manual` (the code's comment calls it an
external close but stores `'manual'`), and the exit reasons expressible in
the record type are exactly tp, sl, manual, timeout, signal — `external`
is not among them. -/
theorem c3_external_close_records_reason_manual :
    (∀ (position : Position) (currentPrice : ℚ) (now : ℤ),
      (handlePositionClosedTrade position currentPrice now).exitReason = ExitReason.manual) ∧
    (∀ r : ExitReason,
      r.name = "tp" ∨ r.name = "sl" ∨ r.name = "manual" ∨
        r.name = "timeout" ∨ r.name = "signal") := by
  constructor
  · intro position currentPrice now
    rfl
  · intro r
    cases r <;> simp [ExitReason.name]

/-- C2 counterexample: with ETHUSDT holding the `opening` marker (and not
the `closing` one), present in the ledger and absent from the simulated
exchange position list, a reconciliation pass still appends an
external-close trade record and evicts the position — the `opening`
marker is not consulted. -/
theorem c2_counterexample_opening_marker_ignored :
    markerHas openingRaceState.openingPositions "ETHUSDT" = true ∧
    markerHas openingRaceState.closingPositions "ETHUSDT" = false ∧
    (monitoringPass (Except.ok []) (fun _ => happyExternalEnv) 5 openingRaceState).trades =
      [handlePositionClosedTrade ethPosition 2100 5] ∧
    (monitoringPass (Except.ok []) (fun _ => happyExternalEnv) 5 openingRaceState).currentPositions = [] := by
  exact ⟨rfl, rfl, rfl, rfl⟩

/-- C2 amended: the reconciliation close handler records an external close
only when the symbol does not hold the `closing` in-flight marker; when
the `closing` marker is held the state is left entirely untouched (no
record appended, position intact).  The `opening` marker is not consulted
(see the counterexample). -/
theorem c2_closing_marker_suppresses_external_close (position : Position) (now : ℤ)
    (env : ExternalCloseEnv) (st : EngineState)
    (h : markerHas st.closingPositions position.symbol = true) :
    handlePositionClosed position now env st = st := by
  unfold handlePositionClosed
  rw [if_pos h]

/-- Witness for C2: at the concrete closing-race state the handler leaves
the state untouched. -/
theorem c2_closing_marker_suppresses_external_close_witness :
    handlePositionClosed ethPosition 5 happyExternalEnv closingRaceState = closingRaceState :=
  c2_closing_marker_suppresses_external_close ethPosition 5 happyExternalEnv closingRaceState
    (by decide)

/-- C4: the in-flight marker set by an open or close operation is removed
by the time the operation terminates, on every exit path — early
validation return, thrown-and-caught gateway error, and success — and an
invocation rejected by the guard leaves the other invocation's marker in
place: in all cases the marker sets after the call equal the marker sets
before it. -/
theorem c4_markers_released_on_every_exit_path (symbol : String) (decision : GPTDecision)
    (analysisPrice : ℚ) (now : ℤ) (env : OpenEnv) (position : Position) (exitPrice : ℚ)
    (reason : ExitReason) (cnow : ℤ) (cenv : CloseEnv) (st : EngineState) :
    (openPosition symbol decision analysisPrice now env st).2.openingPositions =
      st.openingPositions ∧
    (closePosition position exitPrice reason cnow cenv st).2.closingPositions =
      st.closingPositions := by
  constructor
  · unfold openPosition
    split
    · rfl
    · rename_i h
      have hb := (openPositionBody_preserves_markers symbol decision analysisPrice now env
        { st with openingPositions := markerAdd st.openingPositions symbol }).1
      show markerDelete (openPositionBody symbol decision analysisPrice now env
        { st with openingPositions := markerAdd st.openingPositions symbol }).2.openingPositions
        symbol = st.openingPositions
      rw [hb]
      exact markerDelete_markerAdd st.openingPositions symbol (by simpa using h)
  · unfold closePosition
    split
    · rfl
    · rename_i h
      have hb := (closePositionBody_preserves_markers position exitPrice reason cnow cenv
        { st with closingPositions := markerAdd st.closingPositions position.symbol }).2
      show markerDelete (closePositionBody position exitPrice reason cnow cenv
        { st with closingPositions := markerAdd st.closingPositions position.symbol }).2.closingPositions
        position.symbol = st.closingPositions
      rw [hb]
      exact markerDelete_markerAdd st.closingPositions position.symbol (by simpa using h)

/-- C7 counterexample: on an order whose gateway-reported average price is
10 but whose fill set has weighted average 20, the code derives 10 — the
gateway average takes priority over the fills, contrary to the claimed
fills-first priority (`deriveEntryPriceSpec`). -/
theorem c7_counterexample_avg_price_preferred_over_fills :
    deriveEntryPrice mixedOrder 30 = 10 ∧
    deriveEntryPriceSpec mixedOrder 30 = 20 ∧
    deriveEntryPrice mixedOrder 30 ≠ deriveEntryPriceSpec mixedOrder 30 := by
  have hspec : deriveEntryPriceSpec mixedOrder 30 = 20 := by
    norm_num [deriveEntryPriceSpec, mixedOrder, List.foldl]
  refine ⟨rfl, hspec, ?_⟩
  rw [show deriveEntryPrice mixedOrder 30 = 10 from rfl, hspec]
  norm_num

/-- C10: when the gateway positions request throws, `getPositions` returns
the empty list instead of propagating the error; a monitoring pass run on
that result therefore classifies every ledger position as externally
closed and feeds each one to the external-close handler. -/
theorem c10_gateway_failure_classifies_all_as_external (e : String)
    (envOf : String → ExternalCloseEnv) (now : ℤ) (st : EngineState) :
    getPositions (Except.error e) = [] ∧
    externallyClosedCandidates (Except.error e) st = st.currentPositions ∧
    monitoringPass (Except.error e) envOf now st =
      st.currentPositions.foldl
        (fun acc p => handlePositionClosed p now (envOf p.symbol) acc) st := by
  refine ⟨rfl, ?_, rfl⟩
  simp [externallyClosedCandidates, getPositions]

/-- C6: whenever the order response's derived entry price is not positive,
the open operation fails without storing a position in the ledger and
without incrementing the today-trade counter, on every control path. -/
theorem c6_nonpositive_entry_price_not_stored (symbol : String) (decision : GPTDecision)
    (analysisPrice : ℚ) (now : ℤ) (env : OpenEnv) (st : EngineState) (order : OrderResponse)
    (horder : env.orderResult = some order)
    (hprice : deriveEntryPrice order analysisPrice ≤ 0) :
    (openPosition symbol decision analysisPrice now env st).1.isOpened = false ∧
    (openPosition symbol decision analysisPrice now env st).2.currentPositions =
      st.currentPositions ∧
    (openPosition symbol decision analysisPrice now env st).2.todayTrades = st.todayTrades := by
  have key : ∀ (st' : EngineState) (p : Position),
      openPositionFlow symbol decision analysisPrice now env st' ≠ .opened p := by
    intro st' p hp
    obtain ⟨-, -, -, hsubmit⟩ := openPositionFlow_opened_inv _ _ _ _ _ _ _ hp
    obtain ⟨order', horder', hstore⟩ := openPositionSubmit_opened_inv _ _ _ _ _ _ _ _ _ hsubmit
    rw [horder] at horder'
    injection horder' with he
    subst he
    obtain ⟨hpos, -, -, -⟩ := openPositionStore_opened_inv _ _ _ _ _ _ _ _ _ hstore
    exact hpos hprice
  unfold openPosition
  by_cases hguard : markerHas st.openingPositions symbol = true
  · rw [if_pos hguard]
    exact ⟨rfl, rfl, rfl⟩
  · rw [if_neg hguard]
    dsimp only
    rcases hfl : openPositionFlow symbol decision analysisPrice now env
        { st with openingPositions := markerAdd st.openingPositions symbol } with _ | r | r | p
    · simp [openPositionBody, hfl, OpenOutcome.isOpened]
    · simp [openPositionBody, hfl, OpenOutcome.isOpened]
    · simp [openPositionBody, hfl, OpenOutcome.isOpened]
    · exact absurd hfl (key _ p)

/-- Witness for C6: the concrete degenerate fill set (average price 0, one
fill at price 0) makes the open fail with nothing stored and the counter
untouched. -/
theorem c6_nonpositive_entry_price_not_stored_witness :
    (openPosition "BTCUSDT" baseDecision 100 0 zeroFillOpenEnv emptyState).1.isOpened = false ∧
    (openPosition "BTCUSDT" baseDecision 100 0 zeroFillOpenEnv emptyState).2.currentPositions =
      emptyState.currentPositions ∧
    (openPosition "BTCUSDT" baseDecision 100 0 zeroFillOpenEnv emptyState).2.todayTrades =
      emptyState.todayTrades :=
  c6_nonpositive_entry_price_not_stored "BTCUSDT" baseDecision 100 0 zeroFillOpenEnv emptyState
    zeroFillOrder rfl (by norm_num [deriveEntryPrice, zeroFillOrder, List.foldl])

theorem openPosition_overLeverage_run :
    (openPosition "BTCUSDT" overLeverageDecision 100 0 happyOpenEnv emptyState).1 =
      .opened expectedOpenedPosition ∧
    (openPosition "BTCUSDT" overLeverageDecision 100 0 happyOpenEnv emptyState).2.todayTrades = 1 := by
  have hflow : openPositionFlow "BTCUSDT" overLeverageDecision 100 0 happyOpenEnv
      { emptyState with openingPositions := markerAdd emptyState.openingPositions "BTCUSDT" } =
      .opened expectedOpenedPosition := by
    norm_num [openPositionFlow, openPositionSubmit, openPositionStore, overLeverageDecision,
      baseDecision, happyOpenEnv, emptyState, canOpenNewPosition, canOpenExposureCheck,
      calculateTotalExposure, MAX_LEVERAGE, MAX_POSITION_SIZE_PERCENT,
      MAX_TOTAL_EXPOSURE_PERCENT, QUANTITY_PRECISION, PRICE_PRECISION, deriveEntryPrice,
      orFalsy, roundToPrecision, round_eq, expectedOpenedPosition, List.foldl, min_def, max_def,
      markerAdd, markerHas]
  unfold openPosition
  rw [if_neg (by decide)]
  dsimp only
  simp only [openPositionBody, hflow]
  exact ⟨trivial, rfl⟩

/-- C8 counterexample: a recommendation with leverage 20 — outside the
valid range `[1, MAX_LEVERAGE] = [1, 10]` — is not rejected: the open
proceeds, stores a position with the leverage clamped to 10, and
increments the today-trade counter. -/
theorem c8_counterexample_over_limit_leverage_not_rejected :
    (openPosition "BTCUSDT" overLeverageDecision 100 0 happyOpenEnv emptyState).1.storedLeverage =
      some 10 ∧
    (openPosition "BTCUSDT" overLeverageDecision 100 0 happyOpenEnv emptyState).2.todayTrades = 1 := by
  refine ⟨?_, openPosition_overLeverage_run.2⟩
  rw [openPosition_overLeverage_run.1]
  rfl

/-- C8 amended: the open operation rejects — leaving the engine state
entirely unchanged — whenever the market price is not positive, the
leverage is below 1, or the size percentage is not positive; leverage
above `MAX_LEVERAGE` and size above `MAX_POSITION_SIZE_PERCENT` are not
rejected but clamped: every stored position has leverage in `[1, 10]` and
size percentage in `(0, 5]`, so no out-of-range value reaches the
downstream position-sizing arithmetic. -/
theorem c8_open_validation_and_clamping (symbol : String) (decision : GPTDecision)
    (analysisPrice : ℚ) (now : ℤ) (env : OpenEnv) (st : EngineState) :
    ((analysisPrice ≤ 0 ∨ decision.leverage < 1 ∨ decision.positionSizePercent ≤ 0) →
      (openPosition symbol decision analysisPrice now env st).1.isOpened = false ∧
      (openPosition symbol decision analysisPrice now env st).2 = st) ∧
    (∀ p, (openPosition symbol decision analysisPrice now env st).1 = .opened p →
      1 ≤ p.leverage ∧ p.leverage ≤ MAX_LEVERAGE ∧
      0 < p.positionSizePercent ∧ p.positionSizePercent ≤ MAX_POSITION_SIZE_PERCENT) := by
  constructor
  · intro hv
    have key : ∀ (st' : EngineState) (p : Position),
        openPositionFlow symbol decision analysisPrice now env st' ≠ .opened p := by
      intro st' p hp
      obtain ⟨h1, h2, h3, -⟩ := openPositionFlow_opened_inv _ _ _ _ _ _ _ hp
      rcases hv with h | h | h <;> contradiction
    unfold openPosition
    by_cases hguard : markerHas st.openingPositions symbol = true
    · rw [if_pos hguard]
      exact ⟨rfl, rfl⟩
    · rw [if_neg hguard]
      dsimp only
      rcases hfl : openPositionFlow symbol decision analysisPrice now env
          { st with openingPositions := markerAdd st.openingPositions symbol } with _ | r | r | p
      · refine ⟨by simp [openPositionBody, hfl, OpenOutcome.isOpened], ?_⟩
        show ({ (openPositionBody symbol decision analysisPrice now env
          { st with openingPositions := markerAdd st.openingPositions symbol }).2 with
            openingPositions := markerDelete (openPositionBody symbol decision analysisPrice now env
              { st with openingPositions := markerAdd st.openingPositions symbol }).2.openingPositions
              symbol } : EngineState) = st
        simp only [openPositionBody, hfl]
        rw [markerDelete_markerAdd st.openingPositions symbol (by simpa using hguard)]
      · refine ⟨by simp [openPositionBody, hfl, OpenOutcome.isOpened], ?_⟩
        show ({ (openPositionBody symbol decision analysisPrice now env
          { st with openingPositions := markerAdd st.openingPositions symbol }).2 with
            openingPositions := markerDelete (openPositionBody symbol decision analysisPrice now env
              { st with openingPositions := markerAdd st.openingPositions symbol }).2.openingPositions
              symbol } : EngineState) = st
        simp only [openPositionBody, hfl]
        rw [markerDelete_markerAdd st.openingPositions symbol (by simpa using hguard)]
      · refine ⟨by simp [openPositionBody, hfl, OpenOutcome.isOpened], ?_⟩
        show ({ (openPositionBody symbol decision analysisPrice now env
          { st with openingPositions := markerAdd st.openingPositions symbol }).2 with
            openingPositions := markerDelete (openPositionBody symbol decision analysisPrice now env
              { st with openingPositions := markerAdd st.openingPositions symbol }).2.openingPositions
              symbol } : EngineState) = st
        simp only [openPositionBody, hfl]
        rw [markerDelete_markerAdd st.openingPositions symbol (by simpa using hguard)]
      · exact absurd hfl (key _ p)
  · intro p hp
    unfold openPosition at hp
    by_cases hguard : markerHas st.openingPositions symbol = true
    · rw [if_pos hguard] at hp
      simp at hp
    · rw [if_neg hguard] at hp
      dsimp only at hp
      rcases hfl : openPositionFlow symbol decision analysisPrice now env
          { st with openingPositions := markerAdd st.openingPositions symbol } with _ | r | r | q
      · simp [openPositionBody, hfl] at hp
      · simp [openPositionBody, hfl] at hp
      · simp [openPositionBody, hfl] at hp
      · simp only [openPositionBody, hfl] at hp
        injection hp with he
        subst he
        obtain ⟨-, -, hne3, hsubmit⟩ := openPositionFlow_opened_inv _ _ _ _ _ _ _ hfl
        obtain ⟨order, -, hstore⟩ := openPositionSubmit_opened_inv _ _ _ _ _ _ _ _ _ hsubmit
        obtain ⟨-, -, hlev, hpsp⟩ := openPositionStore_opened_inv _ _ _ _ _ _ _ _ _ hstore
        rw [hlev, hpsp]
        exact ⟨le_min (le_max_left 1 decision.leverage) (by norm_num [MAX_LEVERAGE]),
          min_le_right _ _, lt_min (lt_of_not_le hne3) (by norm_num [MAX_POSITION_SIZE_PERCENT]),
          min_le_right _ _⟩

/-- Witness for C8: a leverage-0 recommendation is rejected with the state
untouched, and the position stored by the leverage-20 run satisfies the
clamped bounds. -/
theorem c8_open_validation_and_clamping_witness :
    ((openPosition "BTCUSDT" invalidLeverageDecision 100 0 happyOpenEnv emptyState).1.isOpened =
      false ∧
     (openPosition "BTCUSDT" invalidLeverageDecision 100 0 happyOpenEnv emptyState).2 =
      emptyState) ∧
    (1 ≤ expectedOpenedPosition.leverage ∧ expectedOpenedPosition.leverage ≤ MAX_LEVERAGE ∧
      0 < expectedOpenedPosition.positionSizePercent ∧
      expectedOpenedPosition.positionSizePercent ≤ MAX_POSITION_SIZE_PERCENT) :=
  ⟨(c8_open_validation_and_clamping "BTCUSDT" invalidLeverageDecision 100 0 happyOpenEnv
      emptyState).1 (Or.inr (Or.inl (by norm_num [invalidLeverageDecision, baseDecision]))),
   (c8_open_validation_and_clamping "BTCUSDT" overLeverageDecision 100 0 happyOpenEnv
      emptyState).2 expectedOpenedPosition openPosition_overLeverage_run.1⟩

/-- C7 amended: the realized entry price is derived with the priority the
code implements — first the gateway-reported average price when it parses
to a positive number; otherwise the fill-quantity-weighted average when
fills are present with positive total quantity; otherwise the pre-trade
market price (also when the fill set is absent, empty, or has
non-positive total quantity). -/
theorem c7_entry_price_priority (order : OrderResponse) (marketPrice : ℚ) :
    (∀ ap, order.avgPrice = some ap → 0 < ap → deriveEntryPrice order marketPrice = ap) ∧
    ((∀ ap, order.avgPrice = some ap → ap ≤ 0) →
      (∀ fills, order.fills = some fills → fills ≠ [] → 0 < totalFillQty fills →
        deriveEntryPrice order marketPrice = fillWeightedAvg fills) ∧
      ((order.fills = none ∨ order.fills = some [] ∨
          (∀ fills, order.fills = some fills → totalFillQty fills ≤ 0)) →
        deriveEntryPrice order marketPrice = marketPrice)) := by
  rcases order with ⟨ap, fl⟩
  have hbranch : ∀ (hv : (∀ a, (ap = some a) → a ≤ 0)),
      (∀ fills, fl = some fills → fills ≠ [] → 0 < totalFillQty fills →
        deriveEntryPrice ⟨ap, fl⟩ marketPrice = fillWeightedAvg fills) ∧
      ((fl = none ∨ fl = some [] ∨ (∀ fills, fl = some fills → totalFillQty fills ≤ 0)) →
        deriveEntryPrice ⟨ap, fl⟩ marketPrice = marketPrice) := by
    intro hv
    constructor
    · rintro fills rfl hne hq
      cases ap with
      | none =>
        simp only [deriveEntryPrice]
        rw [if_pos (by simpa [List.length_pos] using hne)]
        rw [if_pos (by simpa [totalFillQty] using hq)]
        rfl
      | some a =>
        have ha := hv a rfl
        simp only [deriveEntryPrice]
        rw [if_neg (not_lt.mpr ha)]
        rw [if_pos (by simpa [List.length_pos] using hne)]
        rw [if_pos (by simpa [totalFillQty] using hq)]
        rfl
    · intro hdisj
      cases ap with
      | none =>
        cases fl with
        | none => rfl
        | some fills =>
          simp only [deriveEntryPrice]
          rcases hdisj with h | h | hq
          · exact absurd h (by simp)
          · injection h with h0
            subst h0
            simp
          · have hle := hq fills rfl
            by_cases hlen : fills.length > 0
            · rw [if_pos hlen, if_neg (by simpa [totalFillQty] using not_lt.mpr hle)]
            · rw [if_neg hlen]
      | some a =>
        have ha := hv a rfl
        cases fl with
        | none => simp [deriveEntryPrice, not_lt.mpr ha]
        | some fills =>
          simp only [deriveEntryPrice]
          rw [if_neg (not_lt.mpr ha)]
          rcases hdisj with h | h | hq
          · exact absurd h (by simp)
          · injection h with h0
            subst h0
            simp
          · have hle := hq fills rfl
            by_cases hlen : fills.length > 0
            · rw [if_pos hlen, if_neg (by simpa [totalFillQty] using not_lt.mpr hle)]
            · rw [if_neg hlen]
  constructor
  · rintro a rfl hpos
    simp [deriveEntryPrice, hpos]
  · intro hv
    exact hbranch hv

/-- Witness for C7: concrete orders exercising all three priority levels —
positive average price wins, fills are used when the average price is
absent, and the market price is the last resort. -/
theorem c7_entry_price_priority_witness :
    deriveEntryPrice mixedOrder 30 = 10 ∧
    deriveEntryPrice noAvgOrder 30 = fillWeightedAvg [{ price := 20, qty := 1 }] ∧
    deriveEntryPrice emptyOrder 30 = 30 :=
  ⟨(c7_entry_price_priority mixedOrder 30).1 10 rfl (by norm_num),
   ((c7_entry_price_priority noAvgOrder 30).2 (by intro a h; cases h)).1
      [{ price := 20, qty := 1 }] rfl (by simp) (by norm_num [totalFillQty, List.foldl]),
   ((c7_entry_price_priority emptyOrder 30).2 (by intro a h; cases h)).2 (Or.inl rfl)⟩

theorem canOpenExposureCheck_true_iff (balance exposure m : ℚ) (hb : 0 < balance) :
    canOpenExposureCheck balance exposure m = true ↔
      exposure + m ≤ MAX_TOTAL_EXPOSURE_PERCENT * balance / 100 := by
  unfold canOpenExposureCheck
  rw [if_pos hb]
  simp only [MAX_TOTAL_EXPOSURE_PERCENT, Bool.not_eq_true', decide_eq_false_iff_not, not_lt]
  rw [div_mul_eq_mul_div, div_le_iff₀ hb, le_div_iff₀ (show (0:ℚ) < 100 by norm_num)]

theorem admitSequence_bound (balance : ℚ) (hb : 0 < balance) :
    ∀ (margins : List ℚ) (exposure : ℚ), margins ≠ [] →
      admitSequence balance exposure margins = true →
      exposure + margins.sum ≤ MAX_TOTAL_EXPOSURE_PERCENT * balance / 100 := by
  intro margins
  induction margins with
  | nil => intro e h; exact absurd rfl h
  | cons m ms ih =>
    intro e hcons hadm
    unfold admitSequence at hadm
    by_cases hc : canOpenExposureCheck balance e m = true
    · rw [if_pos hc] at hadm
      have hstep := (canOpenExposureCheck_true_iff balance e m hb).1 hc
      rcases eq_or_ne ms [] with rfl | hne
      · simpa using hstep
      · have := ih (e + m) hne hadm
        simp only [List.sum_cons]
        linarith
    · rw [if_neg hc] at hadm
      exact absurd hadm (by simp)

/-- C9: the exposure admission check denies whenever the new exposure
percentage `(currentExposure + requiredMargin)/balance × 100` would exceed
`MAX_TOTAL_EXPOSURE_PERCENT`; a non-positive balance denies
unconditionally (fails closed); and for any sequence of opens whose
cumulative required margin exceeds the cap's budget
`MAX_TOTAL_EXPOSURE_PERCENT × balance / 100`, sequential admission rejects
at least one open, regardless of the order of the sequence. -/
theorem c9_exposure_admission :
    (∀ (st : EngineState) (m : ℚ), st.balance ≤ 0 → canOpenNewPosition st m = false) ∧
    (∀ (st : EngineState) (m : ℚ), 0 < st.balance →
      (canOpenNewPosition st m = true ↔
        ((calculateTotalExposure st).1 + m) / st.balance * 100 ≤ MAX_TOTAL_EXPOSURE_PERCENT)) ∧
    (∀ (balance : ℚ) (margins : List ℚ), 0 < balance →
      MAX_TOTAL_EXPOSURE_PERCENT * balance / 100 < margins.sum →
      admitSequence balance 0 margins = false) := by
  refine ⟨?_, ?_, ?_⟩
  · intro st m hb
    unfold canOpenNewPosition canOpenExposureCheck
    rw [if_neg (not_lt.mpr hb)]
    norm_num [MAX_TOTAL_EXPOSURE_PERCENT]
  · intro st m hb
    unfold canOpenNewPosition canOpenExposureCheck
    rw [if_pos hb]
    simp [Bool.not_eq_true', decide_eq_false_iff_not, not_lt]
  · intro b ms hb hsum
    by_contra hadm
    rw [Bool.not_eq_false] at hadm
    rcases eq_or_ne ms [] with rfl | hne
    · simp only [List.sum_nil, MAX_TOTAL_EXPOSURE_PERCENT] at hsum
      have : (0:ℚ) < 80 * b / 100 := by positivity
      linarith
    · have := admitSequence_bound b hb ms 0 hne hadm
      linarith

/-- Witness for C9: a negative balance denies; a 50 USDT margin on a 1000
USDT balance with no open positions is admitted; and margins 50 then 40 on
a 100 USDT balance (budget 80) are not all admitted. -/
theorem c9_exposure_admission_witness :
    canOpenNewPosition negBalanceState 10 = false ∧
    canOpenNewPosition emptyState 50 = true ∧
    admitSequence 100 0 [50, 40] = false :=
  ⟨c9_exposure_admission.1 negBalanceState 10 (by norm_num [negBalanceState, emptyState]),
   (c9_exposure_admission.2.1 emptyState 50 (by norm_num [emptyState])).mpr
      (by norm_num [calculateTotalExposure, emptyState, MAX_TOTAL_EXPOSURE_PERCENT, List.foldl]),
   c9_exposure_admission.2.2 100 [50, 40] (by norm_num)
      (by norm_num [MAX_TOTAL_EXPOSURE_PERCENT])⟩

end BotEngine
